import Mathlib

/-!
Verification development for the marktoflow agent-adapter layer
(`src/aiworkflow/agents/claude_code.py` and `src/aiworkflow/agents/opencode.py`).

The Python adapters are shallowly embedded as pure Lean functions.  External
collaborators (the backend executable, the HTTP server, the MCP bridge, the
`httpx` library) are modelled by environment records that carry the outcome of
each external interaction; control flow, string manipulation, and the
JSON-extraction ladder are translated directly from the source.
-/

namespace Marktoflow

/-- Opening curly brace character (ASCII 123). -/
def braceOpen : Char := Char.ofNat 123

/-- Closing curly brace character (ASCII 125). -/
def braceClose : Char := Char.ofNat 125

/-- Backtick character (ASCII 96). -/
def btick : Char := Char.ofNat 96

/-- Whitespace test matching the Python notion of whitespace on the characters
that occur in this development (space, tab, newline, carriage return). -/
def isWsChar (c : Char) : Bool :=
  c = ' ' || c = '\t' || c = '\n' || c = '\r'

/-- Drop leading whitespace, as the Python regex class backslash-s-star and
`json.loads` leading-whitespace skipping do. -/
def skipWs (cs : List Char) : List Char :=
  cs.dropWhile isWsChar

/-- JSON value as produced by `json.loads`.  Numeric literals are modelled as
integers; float and unicode-escape forms are outside the scope of the claims
settled here.  Object entries keep insertion order. -/
inductive Json where
  | null
  | bool (b : Bool)
  | num (n : Int)
  | str (s : String)
  | arr (elems : List Json)
  | obj (entries : List (String × Json))

/-- First entry of an association list with the given key (the objects handled
by the claims have unique keys, so this agrees with Python dict lookup). -/
def findEntry (k : String) : List (String × Json) → Option Json
  | [] => none
  | kv :: rest => if kv.1 = k then some kv.2 else findEntry k rest

/-- Python `data.get(k)` / `k in data` on a parsed-JSON value: key lookup when
the value is a dict, absent otherwise. -/
def Json.getKey? : Json → String → Option Json
  | .obj entries, k => findEntry k entries
  | _, _ => none

/-- Escape table of a JSON string literal (unicode escapes omitted). -/
def escChar (c : Char) : Option Char :=
  if c = '"' then some '"'
  else if c = '\\' then some '\\'
  else if c = '/' then some '/'
  else if c = 'n' then some '\n'
  else if c = 't' then some '\t'
  else if c = 'r' then some '\r'
  else if c = 'b' then some (Char.ofNat 8)
  else if c = 'f' then some (Char.ofNat 12)
  else none

/-- Parse the remainder of a JSON string literal (the opening quote already
consumed); returns the decoded characters and the input after the closing
quote. -/
def parseStrChars : List Char → Option (List Char × List Char)
  | [] => none
  | '"' :: rest => some ([], rest)
  | '\\' :: e :: rest =>
    match escChar e with
    | some d => (parseStrChars rest).map (fun p => (d :: p.1, p.2))
    | none => none
  | '\\' :: [] => none
  | c :: rest => (parseStrChars rest).map (fun p => (c :: p.1, p.2))

/-- Decimal value of a digit run. -/
def digitsToNat (ds : List Char) : Nat :=
  ds.foldl (fun a c => a * 10 + (c.toNat - 48)) 0

/-- Parse a nonempty run of decimal digits. -/
def parseNumNat (cs : List Char) : Option (Nat × List Char) :=
  let ds := cs.takeWhile Char.isDigit
  if ds = [] then none else some (digitsToNat ds, cs.dropWhile Char.isDigit)

/-- Parse an optionally negated integer literal. -/
def parseNum : List Char → Option (Int × List Char)
  | '-' :: rest => (parseNumNat rest).map (fun p => (-(p.1 : Int), p.2))
  | cs => (parseNumNat cs).map (fun p => ((p.1 : Int), p.2))

mutual

/-- Recursive-descent JSON value parser (fuel-indexed), modelling
`json.loads`. -/
def parseVal : Nat → List Char → Option (Json × List Char)
  | 0, _ => none
  | fuel + 1, cs =>
    match skipWs cs with
    | [] => none
    | c :: rest =>
      if c = braceOpen then parseObjBody fuel rest
      else if c = '[' then parseArrBody fuel rest
      else if c = '"' then
        (parseStrChars rest).map (fun p => (Json.str (String.mk p.1), p.2))
      else if c = '-' || c.isDigit then
        (parseNum (c :: rest)).map (fun p => (Json.num p.1, p.2))
      else if ('t' :: 'r' :: 'u' :: ['e']).isPrefixOf (c :: rest) then
        some (Json.bool true, (c :: rest).drop 4)
      else if ('f' :: 'a' :: 'l' :: 's' :: ['e']).isPrefixOf (c :: rest) then
        some (Json.bool false, (c :: rest).drop 5)
      else if ('n' :: 'u' :: 'l' :: ['l']).isPrefixOf (c :: rest) then
        some (Json.null, (c :: rest).drop 4)
      else none

/-- Parse an object body (opening brace already consumed). -/
def parseObjBody : Nat → List Char → Option (Json × List Char)
  | 0, _ => none
  | fuel + 1, cs =>
    match skipWs cs with
    | [] => none
    | c :: rest =>
      if c = braceClose then some (Json.obj [], rest)
      else (parseMembers fuel (c :: rest)).map (fun p => (Json.obj p.1, p.2))

/-- Parse one or more `"key": value` members followed by the closing brace. -/
def parseMembers : Nat → List Char → Option (List (String × Json) × List Char)
  | 0, _ => none
  | fuel + 1, cs =>
    match skipWs cs with
    | '"' :: rest =>
      match parseStrChars rest with
      | none => none
      | some (key, rest1) =>
        match skipWs rest1 with
        | ':' :: rest2 =>
          match parseVal fuel rest2 with
          | none => none
          | some (v, rest3) =>
            match skipWs rest3 with
            | [] => none
            | c :: rest4 =>
              if c = ',' then
                (parseMembers fuel rest4).map
                  (fun p => ((String.mk key, v) :: p.1, p.2))
              else if c = braceClose then some ([(String.mk key, v)], rest4)
              else none
        | _ => none
    | _ => none

/-- Parse an array body (opening bracket already consumed). -/
def parseArrBody : Nat → List Char → Option (Json × List Char)
  | 0, _ => none
  | fuel + 1, cs =>
    match skipWs cs with
    | [] => none
    | c :: rest =>
      if c = ']' then some (Json.arr [], rest)
      else (parseItems fuel (c :: rest)).map (fun p => (Json.arr p.1, p.2))

/-- Parse one or more array items followed by the closing bracket. -/
def parseItems : Nat → List Char → Option (List Json × List Char)
  | 0, _ => none
  | fuel + 1, cs =>
    match parseVal fuel cs with
    | none => none
    | some (v, rest) =>
      match skipWs rest with
      | [] => none
      | c :: rest2 =>
        if c = ',' then (parseItems fuel rest2).map (fun p => (v :: p.1, p.2))
        else if c = ']' then some ([v], rest2)
        else none

end

/-- Model of `json.loads`: parse one JSON value and require only trailing
whitespace after it. -/
def parseJson (s : String) : Option Json :=
  let cs := s.toList
  match parseVal (3 * cs.length + 4) cs with
  | some (v, rest) => if skipWs rest = [] then some v else none
  | none => none

/-- The literal characters of the fence tag in the regex
`(three backticks)json` used by `analyze`. -/
def fenceTag : List Char := btick :: btick :: btick :: 'j' :: 's' :: 'o' :: ['n']

/-- After the lazily captured closing brace, the regex requires optional
whitespace followed by three backticks; whitespace never contains a backtick,
so greedy-skip-then-check is exact. -/
def closeOk (cs : List Char) : Bool :=
  (btick :: btick :: [btick]).isPrefixOf (skipWs cs)

/-- Lazy capture of `braces-delimited, dot-star lazy` inside the fence regex:
the shortest extension of the accumulator ending at a closing brace whose
remainder satisfies `closeOk`. -/
def lazyScan (acc : List Char) : List Char → Option (List Char)
  | [] => none
  | c :: rest =>
    if c = braceClose then
      if closeOk rest then some (acc ++ [c]) else lazyScan (acc ++ [c]) rest
    else lazyScan (acc ++ [c]) rest

/-- Attempt of the fence regex anchored at the current position: the literal
tag, greedy whitespace, an opening brace, then the lazy capture. -/
def fenceMatchAt (cs : List Char) : Option (List Char) :=
  if fenceTag.isPrefixOf cs then
    match skipWs (cs.drop 7) with
    | [] => none
    | c :: rest => if c = braceOpen then lazyScan [braceOpen] rest else none
  else none

/-- Leftmost search of the fence regex, as `re.search` with `re.DOTALL`:
group 1 of the first starting position at which a full match succeeds. -/
def fenceSearch : List Char → Option (List Char)
  | [] => none
  | c :: rest =>
    match fenceMatchAt (c :: rest) with
    | some r => some r
    | none => fenceSearch rest

/-- Remainder after the first opening brace. -/
def dropToOpen : List Char → Option (List Char)
  | [] => none
  | c :: rest => if c = braceOpen then some rest else dropToOpen rest

/-- Characters strictly before the last closing brace, if one exists. -/
def cutLastClose (cs : List Char) : Option (List Char) :=
  match cs.reverse.dropWhile (fun c => c != braceClose) with
  | [] => none
  | _ :: revBody => some revBody.reverse

/-- Greedy search of the brace regex `open-brace, dot-star, close-brace` with
`re.DOTALL`: from the first opening brace to the last closing brace after
it. -/
def braceSearch (cs : List Char) : Option (List Char) :=
  match dropToOpen cs with
  | none => none
  | some after =>
    match cutLastClose after with
    | none => none
    | some body => some (braceOpen :: body ++ [braceClose])

/-- Result of `analyze`: the parsed structure when a parse succeeded, the raw
backend text otherwise. -/
inductive AnalyzeResult where
  | json (v : Json)
  | text (s : String)

/-- The regex fallback of `analyze` after direct parsing failed: try the
fenced-block regex; only when it does not match at all, try the brace regex;
parse the single capture once; on parse failure return the raw text. -/
def extractLadder (result : String) : AnalyzeResult :=
  match fenceSearch result.toList with
  | some cap =>
    match parseJson (String.mk cap) with
    | some v => .json v
    | none => .text result
  | none =>
    match braceSearch result.toList with
    | some cap =>
      match parseJson (String.mk cap) with
      | some v => .json v
      | none => .text result
    | none => .text result

/-- A backend response that is exactly a json-tagged markdown fence wrapping
the given content. -/
def fenceWrap (s : String) : String := "```json\n" ++ s ++ "\n```"

/-- The response-normalization tail of `ClaudeCodeAdapter.analyze` and
`OpenCodeAdapter.analyze` (identical in both sources): with a schema, parse
the whole text, else run the regex ladder; without a schema return the text
as-is. -/
def normalizeAnalyze (hasSchema : Bool) (result : String) : AnalyzeResult :=
  if hasSchema then
    match parseJson result with
    | some v => .json v
    | none => extractLadder result
  else .text result

mutual

/-- Python `str()` rendering of a parsed-JSON value (the `str(data)` fallback
of `_execute_via_server`). -/
def pyRepr : Json → String
  | .null => "None"
  | .bool true => "True"
  | .bool false => "False"
  | .num n => toString n
  | .str s => "\x27" ++ s ++ "\x27"
  | .arr xs => "[" ++ pyReprItems xs ++ "]"
  | .obj kvs => "\x7b" ++ pyReprEntries kvs ++ "\x7d"

/-- Comma-separated rendering of list items. -/
def pyReprItems : List Json → String
  | [] => ""
  | [x] => pyRepr x
  | x :: y :: rest => pyRepr x ++ ", " ++ pyReprItems (y :: rest)

/-- Comma-separated rendering of dict entries. -/
def pyReprEntries : List (String × Json) → String
  | [] => ""
  | [kv] => "\x27" ++ kv.1 ++ "\x27: " ++ pyRepr kv.2
  | kv :: kv2 :: rest =>
    "\x27" ++ kv.1 ++ "\x27: " ++ pyRepr kv.2 ++ ", " ++ pyReprEntries (kv2 :: rest)

end

/-- The join over the parts list in `_execute_via_server`: Python
`join(part.get(text-key, empty) for part in parts if text-key in part)`.
Parts whose text value is not a string make the join raise `TypeError`
(modelled as the error case); parts without the key are skipped.  The server
contract (spec section 6) delivers parts as typed objects, so membership is
modelled as dict-key lookup. -/
def joinParts : List Json → Except String String
  | [] => .ok ("")
  | p :: rest =>
    match p.getKey? ("text") with
    | some (.str s) => (joinParts rest).map (fun r => s ++ r)
    | some _ => .error ("TypeError: sequence item: expected str instance")
    | none => joinParts rest

/-- Text extraction of `OpenCodeAdapter._execute_via_server` applied to the
decoded response body: a body with a parts list joins the text of the parts
that carry a text field; a body with a flat text field returns that value; any
other body is rendered with Python str().  Error means a raised exception. -/
def executeViaServer (data : Json) : Except String Json :=
  match data.getKey? ("parts") with
  | some (.arr parts) => (joinParts parts).map Json.str
  | some _ => .error ("TypeError: parts value is not iterable of parts")
  | none =>
    match data.getKey? ("text") with
    | some t => .ok t
    | none => .ok (.str (pyRepr data))

/-- Concatenated text of exactly the parts that carry a string text field,
in order.  This is the behaviour the source implements (membership of the
text key), stated as a standalone function for comparison. -/
def textFieldConcat : List Json → String
  | [] => ""
  | p :: rest =>
    match p.getKey? ("text") with
    | some (.str s) => s ++ textFieldConcat rest
    | _ => textFieldConcat rest

/-- Concatenated text of exactly the parts whose declared type is text, as the
specification words it ("take all parts whose type is text, concatenate in
order"). -/
def specTypedPartsConcat (parts : List Json) : String :=
  String.join (parts.filterMap (fun p =>
    match p.getKey? ("type") with
    | some (.str ty) =>
      if ty = "text" then
        match p.getKey? ("text") with
        | some (.str s) => some s
        | _ => none
      else none
    | _ => none))

/-- One line received on the server-sent-event channel, after the JSON-decode
attempt of its payload: a blank keep-alive line, a line without the data
marker, or a data line whose payload decoded to a JSON envelope (none when
`json.loads` raised a decode error).  The server contract (spec section 6)
delivers JSON objects with a type discriminator on this channel. -/
inductive SSEFrame where
  | blank
  | other (line : String)
  | data (payload : Option Json)

/-- The event-dispatch loop of `OpenCodeAdapter._execute_via_server_stream`:
the list of chunks yielded for a sequence of received frames.  Blank lines,
lines without the data marker, and undecodable payloads are skipped; a
message-part-delta envelope yields its delta text; a message-complete envelope
stops the loop; a message-part envelope whose part has type text yields the
full part text. -/
def streamYields : List SSEFrame → List Json
  | [] => []
  | .blank :: rest => streamYields rest
  | .other _ :: rest => streamYields rest
  | .data none :: rest => streamYields rest
  | .data (some j) :: rest =>
    match j.getKey? ("type") with
    | some (.str ty) =>
      if ty = "message.part.delta" then
        match j.getKey? ("delta") with
        | some d =>
          match d.getKey? ("text") with
          | some t => t :: streamYields rest
          | none => streamYields rest
        | none => streamYields rest
      else if ty = "message.complete" then []
      else if ty = "message.part" then
        let part := match j.getKey? ("part") with
          | some p => p
          | none => Json.obj []
        match part.getKey? ("type") with
        | some (.str pty) =>
          if pty = "text" then
            match part.getKey? ("text") with
            | some t => t :: streamYields rest
            | none => streamYields rest
          else streamYields rest
        | _ => streamYields rest
      else streamYields rest
    | _ => streamYields rest

/-- A delta envelope carrying a text fragment, as simulated in the claims. -/
def deltaFrame (t : String) : SSEFrame :=
  .data (some (.obj [(("type"), .str ("message.part.delta")),
                     (("delta"), .obj [(("text"), .str t)])]))

/-- A terminal message-complete envelope. -/
def completeFrame : SSEFrame :=
  .data (some (.obj [(("type"), .str ("message.complete"))]))

/-- A whole-part envelope of the given part type and text. -/
def partFrame (partType : String) (t : String) : SSEFrame :=
  .data (some (.obj [(("type"), .str ("message.part")),
                     (("part"), .obj [(("type"), .str partType),
                                      (("text"), .str t)])]))

/-- Python str.strip() over the whitespace occurring in this development. -/
def pyStrip (s : String) : String :=
  String.mk (((s.toList.dropWhile isWsChar).reverse.dropWhile isWsChar).reverse)

/-- Behaviour of one spawned child process: the wall-clock seconds after
which it completes on its own (none when it never completes), and its final
streams and exit code. -/
structure ProcBehavior where
  completion : Option Nat
  stdout : String
  stderr : String
  exitCode : Int

/-- Diagnostic message raised on a nonzero exit code, shared verbatim shape by
both adapters up to the tool name. -/
def cliFailMsg (tool : String) (p : ProcBehavior) : String :=
  tool ++ " failed (exit code " ++ toString p.exitCode ++ ")\nSTDOUT: "
    ++ p.stdout ++ "\nSTDERR: "
    ++ (if p.stderr = "" then "Unknown error" else p.stderr)

/-- Message raised by the Claude Code driver after the timeout fired. -/
def ccTimeoutMsg (timeout : Nat) : String :=
  "Claude Code CLI timed out after " ++ toString timeout ++ "s"

/-- Observable outcome of one subprocess-mode execution: the returned value or
raised error, whether the child was forcibly killed, whether the child was
waited for (reaped) before returning, and the wall-clock seconds spent. -/
structure CliRun where
  result : Except String String
  killed : Bool
  reaped : Bool
  elapsed : Nat

/-- `ClaudeCodeAdapter._execute_via_cli`: communicate under `asyncio.wait_for`
with the configured timeout; when the timeout fires the child is killed, then
awaited, then a timeout error is raised; on completion a nonzero exit raises
the diagnostic error and exit zero returns the stripped stdout. -/
def ccExecuteViaCli (timeout : Nat) (p : ProcBehavior) : CliRun :=
  match p.completion with
  | some t =>
    if t ≤ timeout then
      { result := if p.exitCode ≠ 0 then
          .error (cliFailMsg ("Claude Code CLI") p)
        else .ok (pyStrip p.stdout),
        killed := false, reaped := true, elapsed := t }
    else
      { result := .error (ccTimeoutMsg timeout),
        killed := true, reaped := true, elapsed := timeout }
  | none =>
    { result := .error (ccTimeoutMsg timeout),
      killed := true, reaped := true, elapsed := timeout }

/-- `OpenCodeAdapter._execute_via_cli`: communicate is awaited with no timeout
at all, so the call returns only when the child completes; a child that never
completes hangs the caller forever (the none case). -/
def ocExecuteViaCli (p : ProcBehavior) : Option (Except String String) :=
  match p.completion with
  | some _ =>
    some (if p.exitCode ≠ 0 then
            .error (cliFailMsg ("OpenCode CLI") p)
          else .ok (pyStrip p.stdout))
  | none => none

/-- Observable side effect performed during adapter initialization. -/
inductive Effect where
  | whichCheck
  | probe
  | spawnServer
  | createHttpClient
  | createSession
  | mcpBridgeCreate
  | mcpBridgeInit
deriving BEq, DecidableEq

/-- Number of liveness probes in an effect trace. -/
def probeCount : List Effect → Nat
  | [] => 0
  | .probe :: rest => probeCount rest + 1
  | _ :: rest => probeCount rest

/-- Outcome of one `initialize()` call: the adapter state afterwards, the
raised error message when initialization raised, and the ordered external
side effects performed. -/
structure InitOut (σ : Type) where
  state : σ
  err : Option String
  effects : List Effect

/-- Environment of `ClaudeCodeAdapter.initialize`: configuration plus the
outcome of each external interaction. -/
structure CCEnv where
  cliPath : String
  whichOk : Bool
  mcpConfigured : Bool
  mcpInitResult : Except String Unit

/-- Runtime state of a `ClaudeCodeAdapter` touched by `initialize`. -/
structure CCState where
  initialized : Bool
  mcpBridge : Bool

/-- Error raised by `ClaudeCodeAdapter.initialize` when the executable is not
on the search path. -/
def ccNotFoundMsg (path : String) : String :=
  "Claude Code CLI not found at \x27" ++ path
    ++ "\x27. Install from: https://github.com/anthropics/claude-code"

/-- `ClaudeCodeAdapter.initialize`: early return when already initialized;
executable check; optional MCP bridge construction and startup; the
initialized flag is set only after everything succeeded. -/
def ccInitialize (env : CCEnv) (s : CCState) : InitOut CCState :=
  if s.initialized then ⟨s, none, []⟩
  else if env.whichOk = false then
    ⟨s, some (ccNotFoundMsg env.cliPath), [.whichCheck]⟩
  else if env.mcpConfigured then
    match env.mcpInitResult with
    | .ok _ =>
      ⟨{ s with mcpBridge := true, initialized := true }, none,
        [.whichCheck, .mcpBridgeCreate, .mcpBridgeInit]⟩
    | .error e =>
      ⟨{ s with mcpBridge := true }, some e,
        [.whichCheck, .mcpBridgeCreate, .mcpBridgeInit]⟩
  else ⟨{ s with initialized := true }, none, [.whichCheck]⟩

/-- Environment of `OpenCodeAdapter.initialize`.  `probes k` is the HTTP
status of the k-th liveness probe on the server root (none when the request
raised); probe 0 is the first check, later indices are the startup poll. -/
structure OCEnv where
  cliPath : String
  serverUrl : String
  mode : String
  autostart : Bool
  whichOk : Bool
  probes : Nat → Option Nat
  httpxOk : Bool
  sessionResult : Except String String
  mcpConfigured : Bool
  mcpInitResult : Except String Unit

/-- Runtime state of an `OpenCodeAdapter` touched by `initialize`. -/
structure OCState where
  initialized : Bool
  activeMode : Option String
  serverProcess : Bool
  httpClient : Bool
  sessionId : Option String
  mcpBridge : Bool

/-- Error raised by `OpenCodeAdapter.initialize` when the executable is not on
the search path. -/
def ocNotFoundMsg (path : String) : String :=
  "OpenCode CLI not found at \x27" ++ path
    ++ "\x27. Install from: https://github.com/opencode-ai/opencode"

/-- `OpenCodeAdapter._check_server_available`: issue a bounded-time GET on the
server root and report reachable exactly when it returned status 200; any
raised exception reports unreachable. -/
def checkServerAvailable (status : Option Nat) : Bool :=
  match status with
  | some code => code == 200
  | none => false

/-- Last colon-separated segment of a string, as the Python split-and-take-last
used to recover the port from the server URL. -/
def lastColonSegment (s : String) : String :=
  match (s.splitOn (":")).getLast? with
  | some x => x
  | none => s

/-- Error raised when the server is unreachable and auto-start is off. -/
def ocServeHint (url : String) : String :=
  "OpenCode server not running at " ++ url
    ++ ". Start with: opencode serve --port " ++ lastColonSegment url

/-- The bounded startup poll of `_ensure_server_running`: up to the attempt
ceiling, probe once per interval starting at probe index i; returns whether a
probe succeeded and how many probes were issued. -/
def pollServer (probes : Nat → Option Nat) : Nat → Nat → Bool × Nat
  | 0, _ => (false, 0)
  | n + 1, i =>
    if checkServerAvailable (probes i) then (true, 1)
    else
      let r := pollServer probes n (i + 1)
      (r.1, r.2 + 1)

/-- `OpenCodeAdapter._ensure_server_running`: probe once; when unreachable and
auto-start is off raise the actionable hint; otherwise spawn the server and
poll up to 30 times, raising a fatal error when the ceiling is exhausted.
Returns the raised error, whether a server process is now owned, and the
effects performed. -/
def ensureServerRunning (env : OCEnv) : Option String × Bool × List Effect :=
  if checkServerAvailable (env.probes 0) then (none, false, [.probe])
  else if env.autostart = false then
    (some (ocServeHint env.serverUrl), false, [.probe])
  else
    let r := pollServer env.probes 30 1
    if r.1 then
      (none, true, .probe :: .spawnServer :: List.replicate r.2 .probe)
    else
      (some ("Failed to start OpenCode server"), true,
        .probe :: .spawnServer :: List.replicate r.2 .probe)

/-- Mode-resolution block of `OpenCodeAdapter.initialize`: cli is taken
verbatim; server brings the server up first; any other requested mode is auto,
which probes reachability exactly once and falls back to cli. -/
def ocResolveMode (env : OCEnv) (s : OCState) : InitOut OCState :=
  if env.mode = "cli" then ⟨{ s with activeMode := some ("cli") }, none, []⟩
  else if env.mode = "server" then
    match ensureServerRunning env with
    | (some e, spawned, effs) =>
      ⟨{ s with serverProcess := spawned }, some e, effs⟩
    | (none, spawned, effs) =>
      ⟨{ s with serverProcess := spawned, activeMode := some ("server") },
        none, effs⟩
  else
    if checkServerAvailable (env.probes 0) then
      ⟨{ s with activeMode := some ("server") }, none, [.probe]⟩
    else ⟨{ s with activeMode := some ("cli") }, none, [.probe]⟩

/-- Server-client block of `OpenCodeAdapter.initialize`: in server mode import
httpx, build the client, and create a session, wrapping connection failures in
the actionable message; a missing httpx raises the install hint. -/
def ocConnectServer (env : OCEnv) (s : OCState) : InitOut OCState :=
  if s.activeMode = some ("server") then
    if env.httpxOk = false then
      ⟨s, some ("httpx not installed. Install with: pip install aiworkflow[opencode]"), []⟩
    else
      match env.sessionResult with
      | .ok sid =>
        ⟨{ s with httpClient := true, sessionId := some sid }, none,
          [.createHttpClient, .createSession]⟩
      | .error e =>
        ⟨{ s with httpClient := true },
          some ("Failed to connect to OpenCode server: " ++ e),
          [.createHttpClient, .createSession]⟩
  else ⟨s, none, []⟩

/-- MCP-bridge block of `OpenCodeAdapter.initialize`: when configured, the
bridge is constructed and then started; a startup failure propagates after the
bridge field was already assigned. -/
def ocMcpSetup (env : OCEnv) (s : OCState) : InitOut OCState :=
  if env.mcpConfigured then
    match env.mcpInitResult with
    | .ok _ => ⟨{ s with mcpBridge := true }, none, [.mcpBridgeCreate, .mcpBridgeInit]⟩
    | .error e => ⟨{ s with mcpBridge := true }, some e, [.mcpBridgeCreate, .mcpBridgeInit]⟩
  else ⟨s, none, []⟩

/-- `OpenCodeAdapter.initialize`: early return when already initialized, then
executable check, mode resolution, server connection, MCP bridge, and only
then the initialized flag; a raise at any point stops the chain there. -/
def ocInitialize (env : OCEnv) (s : OCState) : InitOut OCState :=
  if s.initialized then ⟨s, none, []⟩
  else if env.whichOk = false then
    ⟨s, some (ocNotFoundMsg env.cliPath), [.whichCheck]⟩
  else
    match ocResolveMode env s with
    | ⟨s1, some e, effs⟩ => ⟨s1, some e, .whichCheck :: effs⟩
    | ⟨s1, none, effs⟩ =>
      match ocConnectServer env s1 with
      | ⟨s2, some e, effs2⟩ => ⟨s2, some e, .whichCheck :: (effs ++ effs2)⟩
      | ⟨s2, none, effs2⟩ =>
        match ocMcpSetup env s2 with
        | ⟨s3, some e, effs3⟩ =>
          ⟨s3, some e, .whichCheck :: (effs ++ effs2 ++ effs3)⟩
        | ⟨s3, none, effs3⟩ =>
          ⟨{ s3 with initialized := true }, none,
            .whichCheck :: (effs ++ effs2 ++ effs3)⟩

/-- `OpenCodeAdapter.generate` after initialization: route to the server
driver in server mode, else to the subprocess driver (which may hang, hence
the option). -/
def ocGenerate (st : OCState) (serverBody : Json) (p : ProcBehavior) :
    Option (Except String Json) :=
  if st.activeMode = some ("server") then some (executeViaServer serverBody)
  else (ocExecuteViaCli p).map (fun r => r.map Json.str)

/-- Status of a finished workflow step. Modelled from the spec: StepStatus of
`aiworkflow.core.models` is not under src; the spec data model names the two
statuses a StepResult carries (COMPLETED/FAILED). -/
inductive StepStatus where
  | completed
  | failed
deriving BEq, DecidableEq

/-- Result record of one step. Modelled from the spec: StepResult of
`aiworkflow.core.models` is not under src; the spec describes it as a step id
with a status, timestamps, and an output-or-error payload, with output and
error absent unless set.  Timestamps are clock readings modelled as naturals. -/
structure StepResult where
  stepId : String
  status : StepStatus
  output : Option AnalyzeResult
  error : Option String
  startedAt : Nat
  completedAt : Nat

/-- The fields of a workflow step that `execute_step` consumes: its id, its
declared action string, and the extracted operation and tool names. Modelled
from the spec: WorkflowStep of `aiworkflow.core.models` is not under src; the
spec treats a step as a plain data provider with exactly these accessors. -/
structure WorkflowStep where
  id : String
  action : String
  operation : String
  toolName : String

/-- Environment of one `execute_step` call: the initialized flag of the adapter,
the outcome of each operation it may dispatch to (error means that call
raised), and the wall-clock duration of the call. -/
structure StepEnv where
  initialized : Bool
  initResult : Except String Unit
  analyzeResult : Except String AnalyzeResult
  generateResult : Except String String
  callToolResult : Except String AnalyzeResult
  elapsed : Nat

/-- Python `str.startswith`, computed over the character lists. -/
def strStartsWith (s pre : String) : Bool :=
  pre.toList.isPrefixOf s.toList

/-- Body of the try block of `execute_step` (identical in
`ClaudeCodeAdapter` and `OpenCodeAdapter`): lazy initialization, then dispatch
on the action string and the extracted operation; an unrecognized agent
operation raises the ValueError message. -/
def stepDispatch (env : StepEnv) (step : WorkflowStep) : Except String AnalyzeResult :=
  match (if env.initialized then Except.ok () else env.initResult) with
  | .error e => .error e
  | .ok _ =>
    if strStartsWith step.action ("agent.") then
      if step.operation = "analyze" then env.analyzeResult
      else if step.operation = "generate_response" then
        env.generateResult.map AnalyzeResult.text
      else if step.operation = "generate_report" then
        env.generateResult.map AnalyzeResult.text
      else .error ("Unknown agent operation: " ++ step.operation)
    else env.callToolResult

/-- `execute_step` of both adapters: read the clock, run the try block, and
build a COMPLETED StepResult from its value or a FAILED StepResult from the
description of whatever it raised, reading the clock again either way. -/
def executeStep (env : StepEnv) (step : WorkflowStep) (t0 : Nat) : StepResult :=
  match stepDispatch env step with
  | .ok r =>
    { stepId := step.id, status := .completed, output := some r, error := none,
      startedAt := t0, completedAt := t0 + env.elapsed }
  | .error e =>
    { stepId := step.id, status := .failed, output := none, error := some e,
      startedAt := t0, completedAt := t0 + env.elapsed }

/-! Helper lemmas shared between the claim theorems. -/

/-- A successful parts join produces exactly the in-order concatenation of the
string text fields of the parts that carry one. -/
theorem joinParts_ok_eq (parts : List Json) (s : String)
    (h : joinParts parts = Except.ok s) : s = textFieldConcat parts := by
  induction parts generalizing s with
  | nil =>
    simp only [joinParts, Except.ok.injEq] at h
    simp [textFieldConcat, ← h]
  | cons p rest ih =>
    cases hk : p.getKey? ("text") with
    | none =>
      simp only [joinParts, hk] at h
      simp only [textFieldConcat, hk]
      exact ih s h
    | some v =>
      cases v with
      | str s0 =>
        cases hr : joinParts rest with
        | ok r =>
          simp only [joinParts, hk, hr, Except.map, Except.ok.injEq] at h
          simp only [textFieldConcat, hk, ← ih r hr, ← h]
        | error e =>
          simp [joinParts, hk, hr, Except.map] at h
      | null => simp [joinParts, hk] at h
      | bool b => simp [joinParts, hk] at h
      | num n => simp [joinParts, hk] at h
      | arr xs => simp [joinParts, hk] at h
      | obj kvs => simp [joinParts, hk] at h

/-! Claim C2. -/

/-- C2, counterexample: `OpenCodeAdapter._execute_via_cli` awaits the child
with no timeout at all, so a child process that never completes makes the call
hang forever (outcome none = the call never returns): the claim that every
adapter subprocess execution terminates the child and returns within bounded
overhead of the configured timeout is false for the OpenCode adapter. -/
theorem C2_counterexample :
    ocExecuteViaCli ⟨none, (""), (""), 0⟩ = none := rfl

/-- C2, amended: for `ClaudeCodeAdapter._execute_via_cli` with configured
timeout T, a child that has not completed within T is forcibly killed and then
waited for (reaped) before the timeout error is raised, and the call always
returns within T seconds; `OpenCodeAdapter._execute_via_cli` has no timeout
and hangs forever whenever the child never completes. -/
theorem C2_cli_timeout (timeout : Nat) (p q : ProcBehavior)
    (hlate : ∀ t, p.completion = some t → timeout < t)
    (hq : q.completion = none) :
    (ccExecuteViaCli timeout p).killed = true
    ∧ (ccExecuteViaCli timeout p).reaped = true
    ∧ (ccExecuteViaCli timeout p).result = Except.error (ccTimeoutMsg timeout)
    ∧ (∀ r : ProcBehavior, (ccExecuteViaCli timeout r).elapsed ≤ timeout)
    ∧ ocExecuteViaCli q = none := by
  have hbound : ∀ r : ProcBehavior, (ccExecuteViaCli timeout r).elapsed ≤ timeout := by
    intro r
    cases hr : r.completion with
    | none => simp [ccExecuteViaCli, hr]
    | some t =>
      by_cases hle : t ≤ timeout
      · simp [ccExecuteViaCli, hr, hle]
      · simp [ccExecuteViaCli, hr, hle]
  cases hp : p.completion with
  | none =>
    refine ⟨?_, ?_, ?_, hbound, ?_⟩ <;> simp [ccExecuteViaCli, hp, ocExecuteViaCli, hq]
  | some t =>
    have hgt : ¬ t ≤ timeout := Nat.not_le.mpr (hlate t hp)
    refine ⟨?_, ?_, ?_, hbound, ?_⟩ <;>
      simp [ccExecuteViaCli, hp, hgt, ocExecuteViaCli, hq]

/-- C2, witness: a child that completes only after 5 seconds under a 1-second
timeout is killed and reaped, the timeout error is raised, and a
never-completing child hangs the OpenCode driver. -/
theorem C2_cli_timeout_witness :
    (ccExecuteViaCli 1 ⟨some 5, (""), (""), 0⟩).killed = true
    ∧ (ccExecuteViaCli 1 ⟨some 5, (""), (""), 0⟩).reaped = true
    ∧ (ccExecuteViaCli 1 ⟨some 5, (""), (""), 0⟩).result
        = Except.error (ccTimeoutMsg 1)
    ∧ (∀ r : ProcBehavior, (ccExecuteViaCli 1 r).elapsed ≤ 1)
    ∧ ocExecuteViaCli ⟨none, (""), (""), 0⟩ = none :=
  C2_cli_timeout 1 ⟨some 5, (""), (""), 0⟩ ⟨none, (""), (""), 0⟩
    (by intro t ht; injection ht with h; omega) rfl

/-! Claim C3. -/

/-- C3, counterexample: a body whose parts list holds a single part of
declared type image that nevertheless carries a text field: the source
returns the text of that part (it filters on presence of the text key), while the
claim (text of exactly the parts whose type is text) demands the empty
string. -/
theorem C3_counterexample :
    executeViaServer
        (.obj [(("parts"),
          .arr [.obj [(("type"), .str ("image")), (("text"), .str ("X"))]])])
      = .ok (.str ("X"))
    ∧ specTypedPartsConcat
        [.obj [(("type"), .str ("image")), (("text"), .str ("X"))]] = ("")
    ∧ (("X") : String) ≠ ("") :=
  ⟨rfl, rfl, by decide⟩

/-- C3, amended: when the body carries a parts list (of typed part objects)
and the join raises no type error, the result is the in-order concatenation of
the text of exactly those parts that carry a text field, regardless of their
declared type; a body with a flat text field returns that value; a body with
neither key is rendered to a string instead of raising. -/
theorem C3_server_send (kvs : List (String × Json)) :
    (∀ parts s, findEntry ("parts") kvs = some (.arr parts) →
       joinParts parts = Except.ok s →
       executeViaServer (.obj kvs) = .ok (.str (textFieldConcat parts)))
    ∧ (∀ t, findEntry ("parts") kvs = none → findEntry ("text") kvs = some t →
       executeViaServer (.obj kvs) = .ok t)
    ∧ (findEntry ("parts") kvs = none → findEntry ("text") kvs = none →
       executeViaServer (.obj kvs) = .ok (.str (pyRepr (.obj kvs)))) := by
  refine ⟨?_, ?_, ?_⟩
  · intro parts s hp hj
    simp [executeViaServer, Json.getKey?, hp, hj, Except.map,
      joinParts_ok_eq parts s hj]
  · intro t hp ht
    simp [executeViaServer, Json.getKey?, hp, ht]
  · intro hp ht
    simp [executeViaServer, Json.getKey?, hp, ht]

/-- C3, witness: a two-part body (a text-typed part and an untyped text
carrier) concatenates in order; a flat-text body returns the flat text; a body
with neither key degrades to its string rendering. -/
theorem C3_server_send_witness :
    executeViaServer
        (.obj [(("parts"),
          .arr [.obj [(("type"), .str ("text")), (("text"), .str ("Hel"))],
                .obj [(("text"), .str ("lo"))]])])
      = .ok (.str (textFieldConcat
          [.obj [(("type"), .str ("text")), (("text"), .str ("Hel"))],
           .obj [(("text"), .str ("lo"))]]))
    ∧ executeViaServer (.obj [(("text"), .str ("flat"))]) = .ok (.str ("flat"))
    ∧ executeViaServer (.obj [(("other"), .num 1)])
        = .ok (.str (pyRepr (.obj [(("other"), .num 1)]))) :=
  ⟨(C3_server_send _).1 _ _ rfl rfl,
   (C3_server_send _).2.1 _ rfl rfl,
   (C3_server_send _).2.2 rfl rfl⟩

/-! Claim C4. -/

/-- C4: the server-sent-event loop of
`OpenCodeAdapter._execute_via_server_stream` yields each delta fragment in
arrival order, yields the full text of each whole-part event whose part has
type text (and not of other part types), stops at the first message-complete
event and yields nothing after it, and skips undecodable data frames as well
as blank lines; in particular the simulated sequence delta(Hel), delta(lo),
complete yields exactly Hel, lo and then stops, whatever frames follow. -/
theorem C4_stream_dispatch :
    (∀ rest, streamYields (completeFrame :: rest) = [])
    ∧ (∀ t rest, streamYields (deltaFrame t :: rest)
        = .str t :: streamYields rest)
    ∧ (∀ t rest, streamYields (partFrame ("text") t :: rest)
        = .str t :: streamYields rest)
    ∧ (∀ t rest, streamYields (partFrame ("tool") t :: rest)
        = streamYields rest)
    ∧ (∀ rest, streamYields (.data none :: rest) = streamYields rest)
    ∧ (∀ rest, streamYields (.blank :: rest) = streamYields rest)
    ∧ (∀ post, streamYields
        ([deltaFrame ("Hel"), deltaFrame ("lo"), completeFrame] ++ post)
        = [.str ("Hel"), .str ("lo")]) := by
  refine ⟨fun rest => rfl, fun t rest => rfl, fun t rest => rfl,
    fun t rest => rfl, fun rest => rfl, fun rest => rfl, fun post => rfl⟩

/-! Claim C1. -/

/-- C1: `execute_step` (identical in `ClaudeCodeAdapter` and
`OpenCodeAdapter`) always returns a StepResult with both timestamps
populated; any error raised inside lazy initialization, anywhere in the
dispatch (including the unknown-operation ValueError), or inside the
dispatched operation is caught and converted into a FAILED StepResult whose
error field carries the description, while a successful dispatch yields a
COMPLETED StepResult carrying the output. -/
theorem C1_executeStep_contains (env : StepEnv) (step : WorkflowStep) (t0 : Nat) :
    ((executeStep env step t0).startedAt = t0
      ∧ (executeStep env step t0).completedAt = t0 + env.elapsed
      ∧ (executeStep env step t0).stepId = step.id)
    ∧ (∀ e, stepDispatch env step = .error e →
        (executeStep env step t0).status = .failed
        ∧ (executeStep env step t0).error = some e)
    ∧ (∀ r, stepDispatch env step = .ok r →
        (executeStep env step t0).status = .completed
        ∧ (executeStep env step t0).output = some r)
    ∧ (env.initialized = false → ∀ e, env.initResult = .error e →
        (executeStep env step t0).status = .failed
        ∧ (executeStep env step t0).error = some e)
    ∧ (env.initialized = true → strStartsWith step.action ("agent.") = true →
        step.operation ≠ "analyze" → step.operation ≠ "generate_response" →
        step.operation ≠ "generate_report" →
        (executeStep env step t0).status = .failed
        ∧ (executeStep env step t0).error
            = some ("Unknown agent operation: " ++ step.operation))
    ∧ (env.initialized = true → strStartsWith step.action ("agent.") = true →
        step.operation = "analyze" → ∀ e, env.analyzeResult = .error e →
        (executeStep env step t0).status = .failed
        ∧ (executeStep env step t0).error = some e) := by
  refine ⟨?_, ?_, ?_, ?_, ?_, ?_⟩
  · cases h : stepDispatch env step <;> simp [executeStep, h]
  · intro e h; simp [executeStep, h]
  · intro r h; simp [executeStep, h]
  · intro hinit e herr
    have hd : stepDispatch env step = .error e := by
      simp [stepDispatch, hinit, herr]
    simp [executeStep, hd]
  · intro hinit hact h1 h2 h3
    have hd : stepDispatch env step
        = .error ("Unknown agent operation: " ++ step.operation) := by
      simp [stepDispatch, hinit, hact, h1, h2, h3]
    simp [executeStep, hd]
  · intro hinit hact hop e herr
    have hd : stepDispatch env step = .error e := by
      simp [stepDispatch, hinit, hact, hop, herr]
    simp [executeStep, hd]

/-- C1, witness: a step whose lazy initialization raises is converted to a
FAILED StepResult carrying the raised description, with the timestamps
populated from the surrounding clock reads. -/
theorem C1_executeStep_contains_witness :
    ((executeStep ⟨false, .error ("init boom"), .ok (.text ("")), .ok (""),
        .ok (.text ("")), 7⟩ ⟨("s1"), ("agent.analyze"), ("analyze"), ("")⟩ 3).status
      = .failed)
    ∧ ((executeStep ⟨false, .error ("init boom"), .ok (.text ("")), .ok (""),
        .ok (.text ("")), 7⟩ ⟨("s1"), ("agent.analyze"), ("analyze"), ("")⟩ 3).error
      = some ("init boom"))
    ∧ ((executeStep ⟨false, .error ("init boom"), .ok (.text ("")), .ok (""),
        .ok (.text ("")), 7⟩ ⟨("s1"), ("agent.analyze"), ("analyze"), ("")⟩ 3).startedAt
      = 3)
    ∧ ((executeStep ⟨false, .error ("init boom"), .ok (.text ("")), .ok (""),
        .ok (.text ("")), 7⟩ ⟨("s1"), ("agent.analyze"), ("analyze"), ("")⟩ 3).completedAt
      = 10) :=
  have h := C1_executeStep_contains
    ⟨false, .error ("init boom"), .ok (.text ("")), .ok (""), .ok (.text ("")), 7⟩
    ⟨("s1"), ("agent.analyze"), ("analyze"), ("")⟩ 3
  ⟨(h.2.2.2.1 rfl ("init boom") rfl).1, (h.2.2.2.1 rfl ("init boom") rfl).2,
    h.1.1, h.1.2.1⟩

/-! Claim C10. -/

/-- C10: every StepResult returned by `execute_step` has its start timestamp
no later than its completion timestamp, a status that is either COMPLETED or
FAILED, an output only when COMPLETED, and an error only when FAILED. -/
theorem C10_stepResult_invariants (env : StepEnv) (step : WorkflowStep) (t0 : Nat) :
    (executeStep env step t0).startedAt ≤ (executeStep env step t0).completedAt
    ∧ ((executeStep env step t0).status = .completed
        ∨ (executeStep env step t0).status = .failed)
    ∧ ((executeStep env step t0).status = .failed →
        (executeStep env step t0).output = none)
    ∧ ((executeStep env step t0).status = .completed →
        (executeStep env step t0).error = none) := by
  cases h : stepDispatch env step with
  | ok r =>
    refine ⟨?_, Or.inl ?_, ?_, ?_⟩ <;> simp [executeStep, h]
  | error e =>
    refine ⟨?_, Or.inr ?_, ?_, ?_⟩ <;> simp [executeStep, h]

/-- C10, witness: on a concrete failing step the output is absent and the
timestamps are ordered; on a concrete succeeding step the error is absent. -/
theorem C10_stepResult_invariants_witness :
    ((executeStep ⟨false, .error ("boom"), .ok (.text ("")), .ok (""),
        .ok (.text ("")), 2⟩ ⟨("s"), ("tool.x"), ("op"), ("x")⟩ 1).output = none)
    ∧ ((executeStep ⟨false, .error ("boom"), .ok (.text ("")), .ok (""),
        .ok (.text ("")), 2⟩ ⟨("s"), ("tool.x"), ("op"), ("x")⟩ 1).startedAt
      ≤ (executeStep ⟨false, .error ("boom"), .ok (.text ("")), .ok (""),
        .ok (.text ("")), 2⟩ ⟨("s"), ("tool.x"), ("op"), ("x")⟩ 1).completedAt)
    ∧ ((executeStep ⟨true, .ok (), .ok (.text ("")), .ok (""),
        .ok (.text ("ok")), 2⟩ ⟨("s"), ("tool.x"), ("op"), ("x")⟩ 1).error = none) :=
  ⟨(C10_stepResult_invariants ⟨false, .error ("boom"), .ok (.text ("")), .ok (""),
      .ok (.text ("")), 2⟩ ⟨("s"), ("tool.x"), ("op"), ("x")⟩ 1).2.2.1 rfl,
   (C10_stepResult_invariants ⟨false, .error ("boom"), .ok (.text ("")), .ok (""),
      .ok (.text ("")), 2⟩ ⟨("s"), ("tool.x"), ("op"), ("x")⟩ 1).1,
   (C10_stepResult_invariants ⟨true, .ok (), .ok (.text ("")), .ok (""),
      .ok (.text ("ok")), 2⟩ ⟨("s"), ("tool.x"), ("op"), ("x")⟩ 1).2.2.2 (by rfl)⟩

/-! Claim C7. -/

/-- C7: calling `initialize()` on an already-initialized adapter (either
adapter) returns immediately: no executable check, no probe, no server spawn,
no session creation, no MCP bridge construction, and the state is returned
unchanged. -/
theorem C7_initialize_idempotent (envC : CCEnv) (sC : CCState)
    (envO : OCEnv) (sO : OCState)
    (hC : sC.initialized = true) (hO : sO.initialized = true) :
    ccInitialize envC sC = ⟨sC, none, []⟩
    ∧ ocInitialize envO sO = ⟨sO, none, []⟩ := by
  constructor
  · simp [ccInitialize, hC]
  · simp [ocInitialize, hO]

/-- C7, witness: concrete READY states of both adapters are returned verbatim
with an empty effect trace. -/
theorem C7_initialize_idempotent_witness :
    ccInitialize ⟨("claude"), true, true, .ok ()⟩ ⟨true, true⟩
      = ⟨⟨true, true⟩, none, []⟩
    ∧ ocInitialize
        ⟨("opencode"), ("http://localhost:4096"), ("auto"), false, true,
          fun _ => none, true, .ok ("sid"), false, .ok ()⟩
        ⟨true, some ("cli"), false, false, none, false⟩
      = ⟨⟨true, some ("cli"), false, false, none, false⟩, none, []⟩ :=
  C7_initialize_idempotent _ _ _ _ rfl rfl

/-- Mode resolution never touches the initialized flag. -/
theorem ocResolveMode_initialized (env : OCEnv) (s : OCState) :
    (ocResolveMode env s).state.initialized = s.initialized := by
  unfold ocResolveMode
  split
  · rfl
  split
  · rcases h : ensureServerRunning env with ⟨e, spawned, effs⟩
    cases e <;> simp [h]
  · split <;> rfl

/-- The server-connection block never touches the initialized flag. -/
theorem ocConnectServer_initialized (env : OCEnv) (s : OCState) :
    (ocConnectServer env s).state.initialized = s.initialized := by
  unfold ocConnectServer
  split
  · split
    · rfl
    · cases env.sessionResult <;> simp
  · rfl

/-- The MCP block never touches the initialized flag. -/
theorem ocMcpSetup_initialized (env : OCEnv) (s : OCState) :
    (ocMcpSetup env s).state.initialized = s.initialized := by
  unfold ocMcpSetup
  split
  · cases env.mcpInitResult <;> simp
  · rfl

/-- The server-connection block never touches the resolved mode. -/
theorem ocConnectServer_activeMode (env : OCEnv) (s : OCState) :
    (ocConnectServer env s).state.activeMode = s.activeMode := by
  unfold ocConnectServer
  split
  · split
    · rfl
    · cases env.sessionResult <;> simp
  · rfl

/-- The MCP block never touches the resolved mode. -/
theorem ocMcpSetup_activeMode (env : OCEnv) (s : OCState) :
    (ocMcpSetup env s).state.activeMode = s.activeMode := by
  unfold ocMcpSetup
  split
  · cases env.mcpInitResult <;> simp
  · rfl

/-- A probe count distributes over trace concatenation. -/
theorem probeCount_append (a b : List Effect) :
    probeCount (a ++ b) = probeCount a + probeCount b := by
  induction a with
  | nil => simp [probeCount]
  | cons x rest ih =>
    cases x
    all_goals simp [probeCount, ih]
    all_goals omega

/-- The server-connection block performs no liveness probe. -/
theorem ocConnectServer_probe_count (env : OCEnv) (s : OCState) :
    probeCount (ocConnectServer env s).effects = 0 := by
  unfold ocConnectServer
  split
  · split
    · rfl
    · cases env.sessionResult <;> rfl
  · rfl

/-- The MCP block performs no liveness probe. -/
theorem ocMcpSetup_probe_count (env : OCEnv) (s : OCState) :
    probeCount (ocMcpSetup env s).effects = 0 := by
  unfold ocMcpSetup
  split
  · cases env.mcpInitResult <;> rfl
  · rfl

/-! Claim C8. -/

/-- C8: for both adapters, a missing backend executable makes `initialize()`
raise the message naming the configured executable path together with the
install hint, leaving the state untouched; and more generally every failing
`initialize()` call leaves the initialized flag unset, so initialization can
be retried. -/
theorem C8_init_failure (envC : CCEnv) (sC : CCState) (envO : OCEnv) (sO : OCState)
    (hC : sC.initialized = false) (hO : sO.initialized = false) :
    (envC.whichOk = false →
       ccInitialize envC sC
         = ⟨sC, some (ccNotFoundMsg envC.cliPath), [.whichCheck]⟩)
    ∧ (envO.whichOk = false →
       ocInitialize envO sO
         = ⟨sO, some (ocNotFoundMsg envO.cliPath), [.whichCheck]⟩)
    ∧ (∀ e, (ccInitialize envC sC).err = some e →
        (ccInitialize envC sC).state.initialized = false)
    ∧ (∀ e, (ocInitialize envO sO).err = some e →
        (ocInitialize envO sO).state.initialized = false) := by
  refine ⟨?_, ?_, ?_, ?_⟩
  · intro hw
    simp [ccInitialize, hC, hw]
  · intro hw
    simp [ocInitialize, hO, hw]
  · intro e he
    rcases Bool.eq_false_or_eq_true envC.whichOk with hw | hw
    · rcases Bool.eq_false_or_eq_true envC.mcpConfigured with hm | hm
      · cases hmi : envC.mcpInitResult with
        | ok u => simp [ccInitialize, hC, hw, hm, hmi] at he
        | error em => simp [ccInitialize, hC, hw, hm, hmi]
      · simp [ccInitialize, hC, hw, hm] at he
    · simp [ccInitialize, hC, hw]
  · intro e he
    rcases Bool.eq_false_or_eq_true envO.whichOk with hw | hw
    swap
    · simp [ocInitialize, hO, hw]
    · rcases hr : ocResolveMode envO sO with ⟨s1, e1, effs1⟩
      have hs1 : s1.initialized = false := by
        have h := ocResolveMode_initialized envO sO
        rw [hr] at h
        simpa [hO] using h
      cases e1 with
      | some e1v => simp [ocInitialize, hO, hw, hr, hs1]
      | none =>
        rcases hc : ocConnectServer envO s1 with ⟨s2, e2, effs2⟩
        have hs2 : s2.initialized = false := by
          have h := ocConnectServer_initialized envO s1
          rw [hc] at h
          simpa [hs1] using h
        cases e2 with
        | some e2v => simp [ocInitialize, hO, hw, hr, hc, hs2]
        | none =>
          rcases hm : ocMcpSetup envO s2 with ⟨s3, e3, effs3⟩
          have hs3 : s3.initialized = false := by
            have h := ocMcpSetup_initialized envO s2
            rw [hm] at h
            simpa [hs2] using h
          cases e3 with
          | some e3v => simp [ocInitialize, hO, hw, hr, hc, hm, hs3]
          | none => simp [ocInitialize, hO, hw, hr, hc, hm] at he

/-! Claim C9. -/

/-- C9: in auto mode with the executable present, initialization issues
exactly one liveness probe (no retry loop); a reachable server resolves the
active mode to server and an unreachable one to cli; the probe reports
reachable exactly when the GET on the server root returned status 200; and in
the resolved cli mode every generate call on a cleanly exiting subprocess
returns the trimmed stdout of the child. -/
theorem C9_auto_mode (env : OCEnv) (s : OCState)
    (hmode : env.mode = "auto") (hwhich : env.whichOk = true)
    (hinit : s.initialized = false) :
    probeCount (ocInitialize env s).effects = 1
    ∧ (checkServerAvailable (env.probes 0) = true →
        (ocInitialize env s).state.activeMode = some ("server"))
    ∧ (checkServerAvailable (env.probes 0) = false →
        (ocInitialize env s).state.activeMode = some ("cli"))
    ∧ (∀ st : Option Nat, checkServerAvailable st = true ↔ st = some 200)
    ∧ (∀ (body : Json) (p : ProcBehavior) (t : Nat),
        p.completion = some t → p.exitCode = 0 →
        (ocInitialize env s).state.activeMode = some ("cli") →
        ocGenerate (ocInitialize env s).state body p
          = some (.ok (.str (pyStrip p.stdout)))) := by
  have hiff : ∀ st : Option Nat, checkServerAvailable st = true ↔ st = some 200 := by
    intro st
    cases st with
    | none => simp [checkServerAvailable]
    | some c => simp [checkServerAvailable]
  cases hch : checkServerAvailable (env.probes 0) with
  | true =>
    have hr : ocResolveMode env s
        = ⟨{ s with activeMode := some ("server") }, none, [Effect.probe]⟩ := by
      simp [ocResolveMode, hmode, hch]
    rcases hc : ocConnectServer env { s with activeMode := some ("server") }
      with ⟨s2, e2, effs2⟩
    rcases hm2 : ocMcpSetup env s2 with ⟨s3, e3, effs3⟩
    have hs2m := ocConnectServer_activeMode env { s with activeMode := some ("server") }
    rw [hc] at hs2m
    have hs3m := ocMcpSetup_activeMode env s2
    rw [hm2] at hs3m
    have hc0 := ocConnectServer_probe_count env { s with activeMode := some ("server") }
    rw [hc] at hc0
    have hm0 := ocMcpSetup_probe_count env s2
    rw [hm2] at hm0
    have hout : (ocInitialize env s).state.activeMode = some ("server")
        ∧ probeCount (ocInitialize env s).effects = 1 := by
      cases e2 <;> cases e3 <;>
        constructor <;>
          simp_all [ocInitialize, hinit, hwhich, probeCount, probeCount_append]
    refine ⟨hout.2, fun _ => hout.1, ?_, hiff, ?_⟩
    · intro hfalse
      simp at hfalse
    · intro body p t hcomp hexit hcli
      rw [hout.1] at hcli
      simp at hcli
  | false =>
    have hr : ocResolveMode env s
        = ⟨{ s with activeMode := some ("cli") }, none, [Effect.probe]⟩ := by
      simp [ocResolveMode, hmode, hch]
    rcases hc : ocConnectServer env { s with activeMode := some ("cli") }
      with ⟨s2, e2, effs2⟩
    rcases hm2 : ocMcpSetup env s2 with ⟨s3, e3, effs3⟩
    have hs2m := ocConnectServer_activeMode env { s with activeMode := some ("cli") }
    rw [hc] at hs2m
    have hs3m := ocMcpSetup_activeMode env s2
    rw [hm2] at hs3m
    have hc0 := ocConnectServer_probe_count env { s with activeMode := some ("cli") }
    rw [hc] at hc0
    have hm0 := ocMcpSetup_probe_count env s2
    rw [hm2] at hm0
    have hout : (ocInitialize env s).state.activeMode = some ("cli")
        ∧ probeCount (ocInitialize env s).effects = 1 := by
      cases e2 <;> cases e3 <;>
        constructor <;>
          simp_all [ocInitialize, hinit, hwhich, probeCount, probeCount_append]
    refine ⟨hout.2, ?_, fun _ => hout.1, hiff, ?_⟩
    · intro htrue
      simp at htrue
    · intro body p t hcomp hexit hcli
      simp [ocGenerate, hout.1, ocExecuteViaCli, hcomp, hexit, Except.map]

/-- C9, witness: with auto mode, an unreachable server, and a present cli
backend, initialization probes once and resolves to cli, and a generate call
on a child exiting cleanly with stdout of hi surrounded by whitespace returns
the trimmed hi. -/
theorem C9_auto_mode_witness :
    probeCount (ocInitialize
      ⟨("opencode"), ("http://localhost:4096"), ("auto"), false, true,
        fun _ => none, true, .ok ("sid"), false, .ok ()⟩
      ⟨false, none, false, false, none, false⟩).effects = 1
    ∧ (ocInitialize
        ⟨("opencode"), ("http://localhost:4096"), ("auto"), false, true,
          fun _ => none, true, .ok ("sid"), false, .ok ()⟩
        ⟨false, none, false, false, none, false⟩).state.activeMode = some ("cli")
    ∧ ocGenerate (ocInitialize
        ⟨("opencode"), ("http://localhost:4096"), ("auto"), false, true,
          fun _ => none, true, .ok ("sid"), false, .ok ()⟩
        ⟨false, none, false, false, none, false⟩).state
        Json.null ⟨some 1, (" hi \n"), (""), 0⟩
      = some (.ok (.str (pyStrip (" hi \n")))) :=
  have h := C9_auto_mode
    ⟨("opencode"), ("http://localhost:4096"), ("auto"), false, true,
      fun _ => none, true, .ok ("sid"), false, .ok ()⟩
    ⟨false, none, false, false, none, false⟩ rfl rfl rfl
  ⟨h.1, h.2.2.1 rfl,
    h.2.2.2.2 Json.null ⟨some 1, (" hi \n"), (""), 0⟩ 1 rfl rfl (h.2.2.1 rfl)⟩

/-- C8, witness: with the executable absent both adapters raise the exact
not-found message naming the configured path with the install hint, and the
Claude adapter flag stays unset. -/
theorem C8_init_failure_witness :
    ccInitialize ⟨("claude"), false, false, .ok ()⟩ ⟨false, false⟩
      = ⟨⟨false, false⟩, some (ccNotFoundMsg ("claude")), [.whichCheck]⟩
    ∧ ocInitialize
        ⟨("opencode"), ("http://localhost:4096"), ("auto"), false, false,
          fun _ => none, true, .ok ("sid"), false, .ok ()⟩
        ⟨false, none, false, false, none, false⟩
      = ⟨⟨false, none, false, false, none, false⟩,
          some (ocNotFoundMsg ("opencode")), [.whichCheck]⟩
    ∧ (ccInitialize ⟨("claude"), false, false, .ok ()⟩
        ⟨false, false⟩).state.initialized = false :=
  have h := C8_init_failure ⟨("claude"), false, false, .ok ()⟩ ⟨false, false⟩
    ⟨("opencode"), ("http://localhost:4096"), ("auto"), false, false,
      fun _ => none, true, .ok ("sid"), false, .ok ()⟩
    ⟨false, none, false, false, none, false⟩ rfl rfl
  ⟨h.1 rfl, h.2.1 rfl,
    h.2.2.1 (ccNotFoundMsg ("claude")) (by rw [h.1 rfl])⟩

/-! Claim C6. -/

/-- C6: when no rung of the extraction ladder parses (the whole text does not
parse, a fenced capture if any does not parse, and a brace capture if any does
not parse), `analyze` returns the raw backend text unchanged instead of
raising. -/
theorem C6_unparsable_returns_raw (raw : String)
    (h1 : parseJson raw = none)
    (h2 : ∀ c, fenceSearch raw.toList = some c → parseJson (String.mk c) = none)
    (h3 : ∀ c, braceSearch raw.toList = some c → parseJson (String.mk c) = none) :
    normalizeAnalyze true raw = .text raw := by
  have hl : extractLadder raw = .text raw := by
    unfold extractLadder
    cases hf : fenceSearch raw.toList with
    | some c => simp [h2 c hf]
    | none =>
      cases hb : braceSearch raw.toList with
      | some c => simp [h3 c hb]
      | none => rfl
  simp [normalizeAnalyze, h1, hl]

/-- C6, witness: plain prose with no fence and no braces is returned
unchanged. -/
theorem C6_unparsable_returns_raw_witness :
    normalizeAnalyze true ("it is all prose") = .text ("it is all prose") :=
  C6_unparsable_returns_raw ("it is all prose") rfl
    (by
      intro c h
      rw [show fenceSearch (String.toList ("it is all prose")) = none from rfl] at h
      exact Option.noConfusion h)
    (by
      intro c h
      rw [show braceSearch (String.toList ("it is all prose")) = none from rfl] at h
      exact Option.noConfusion h)

/-! Claim C5. -/

/-- The character list of a fence-wrapped response. -/
theorem fenceWrap_toList (s : String) :
    (fenceWrap s).toList
      = btick :: btick :: btick :: 'j' :: 's' :: 'o' :: 'n' :: '\n'
          :: (s.toList ++ ('\n' :: btick :: btick :: [btick])) := by
  have e1 : ("```json\n").data = [btick, btick, btick, 'j', 's', 'o', 'n', '\n'] := by
    decide
  have e2 : ("\n```").data = ['\n', btick, btick, btick] := by decide
  show ("```json\n" ++ s ++ "\n```").data = _
  rw [String.data_append, String.data_append, e1, e2]
  simp [String.toList]

/-- The value parser rejects any input whose first significant character is a
backtick. -/
theorem parseVal_backtick (fuel : Nat) (cs rest : List Char)
    (h : skipWs cs = btick :: rest) : parseVal fuel cs = none := by
  cases fuel with
  | zero => rfl
  | succ n =>
    have d1 : ¬ (btick = braceOpen) := by decide
    have d2 : ¬ (btick = '[') := by decide
    have d3 : ¬ (btick = '"') := by decide
    have d4 : (btick = '-' || btick.isDigit) = false := by decide
    have d5 : (('t') == btick) = false := by decide
    have d6 : (('f') == btick) = false := by decide
    have d7 : (('n') == btick) = false := by decide
    unfold parseVal
    rw [h]
    simp [List.isPrefixOf, d1, d2, d3, d4, d5, d6, d7]

/-- Direct parsing of a fence-wrapped response fails (it starts with a
backtick). -/
theorem parseJson_fenceWrap (s : String) : parseJson (fenceWrap s) = none := by
  have w : isWsChar btick = false := by decide
  have h : skipWs ((fenceWrap s).toList)
      = btick :: (btick :: btick :: 'j' :: 's' :: 'o' :: 'n' :: '\n'
          :: (s.toList ++ ('\n' :: btick :: btick :: [btick]))) := by
    rw [fenceWrap_toList]
    simp [skipWs, List.dropWhile_cons, w]
  have hx : ∀ fuel, parseVal fuel ((fenceWrap s).data) = none :=
    fun fuel => parseVal_backtick fuel _ _ h
  simp [parseJson, hx]

/-- On a fence-wrapped object whose lazy capture runs to the final closing
brace of the object, the fence regex recovers exactly the wrapped content. -/
theorem fenceSearch_fenceWrap (s : String) (mid : List Char)
    (hs : s.toList = braceOpen :: mid)
    (hscan : lazyScan [braceOpen] (mid ++ ('\n' :: btick :: btick :: [btick]))
      = some s.toList) :
    fenceSearch ((fenceWrap s).toList) = some s.toList := by
  have w1 : isWsChar '\n' = true := by decide
  have w2 : isWsChar braceOpen = false := by decide
  rw [hs] at hscan
  have hmatch : fenceMatchAt (btick :: btick :: btick :: 'j' :: 's' :: 'o' :: 'n' :: '\n'
      :: braceOpen :: (mid ++ ('\n' :: btick :: btick :: [btick])))
      = some (braceOpen :: mid) := by
    simp [fenceMatchAt, fenceTag, List.isPrefixOf, skipWs, List.dropWhile_cons,
      w1, w2, hscan]
  rw [fenceWrap_toList s, hs]
  simp only [List.cons_append]
  rw [fenceSearch, hmatch]

/-- C5, counterexample: a fenced, valid JSON value that is an array (not an
object) is not recovered by `analyze`: the regex ladder only captures
brace-delimited content, so the raw text comes back although the fence wraps
valid JSON. -/
theorem C5_counterexample :
    normalizeAnalyze true ("```json\n[1, 2]\n```")
      = .text ("```json\n[1, 2]\n```")
    ∧ parseJson ("[1, 2]") = some (.arr [.num 1, .num 2]) := ⟨rfl, rfl⟩

/-- C5, amended: when the backend response is exactly a json-tagged fence
wrapping a valid JSON object (first character an opening brace) whose lazy
regex capture runs to the final closing brace of the object (no earlier closing
brace of the content is followed by optional whitespace and three backticks),
`analyze` recovers and returns the structure identical to the value inside
the fence. -/
theorem C5_fenced_object (s : String) (mid : List Char) (v : Json)
    (hs : s.toList = braceOpen :: mid)
    (hscan : lazyScan [braceOpen] (mid ++ ('\n' :: btick :: btick :: [btick]))
      = some s.toList)
    (hv : parseJson s = some v) :
    normalizeAnalyze true (fenceWrap s) = .json v := by
  have h1 : parseJson (fenceWrap s) = none := parseJson_fenceWrap s
  have h2 : fenceSearch ((fenceWrap s).data) = some s.toList :=
    fenceSearch_fenceWrap s mid hs hscan
  have h3 : parseJson (String.mk s.data) = some v := hv
  simp [normalizeAnalyze, h1, extractLadder, h2, h3]

/-- C5, witness: the fenced object with one numeric entry is recovered as the
parsed structure. -/
theorem C5_fenced_object_witness :
    normalizeAnalyze true (fenceWrap ("\x7b\"a\": 1\x7d"))
      = .json (.obj [(("a"), .num 1)]) :=
  C5_fenced_object ("\x7b\"a\": 1\x7d")
    ('"' :: 'a' :: '"' :: ':' :: ' ' :: '1' :: [braceClose])
    (.obj [(("a"), .num 1)]) rfl rfl rfl

end Marktoflow
